import Mathlib

/-!
Verification of `pywincert` (src/pywincert/pywincert.py) against its
natural-language specification.

The module drives external Windows tools (makecert, cert2spc, certutil,
pvk2pfx, signtool).  We embed each function shallowly: every externally
observable action (process launch, window activation query, sleep,
keystroke injection, store query/delete, temp-dir creation/removal,
tool invocation) becomes an element of an event trace, and the
behaviour of the outside world (window-manager availability, file
existence, tool exit codes, store output) is an explicit environment
parameter.  Fallible functions return `Except String` carrying the
message of the Python exception they would raise.
-/

namespace Pywincert

/-- Observable effects performed by the pywincert functions. -/
inductive Event where
  | launch (cmd : String)
  | appActivate (title : String) (ok : Bool)
  | sleepTenths (n : Nat)
  | sendKeys (keys : String)
  | addStore (store file : String)
  | mkdtemp (path : String)
  | removeTree (path : String)
  | toolCall (argv : List String)
  deriving DecidableEq, Repr

/-- Outcome of running one of the embedded functions: the emitted event
trace together with the normal/exceptional result. -/
structure RunResult where
  trace : List Event
  result : Except String Unit
  deriving Repr

/-- The window title both responders poll for (pywincert.py lines 115/179). -/
def popupTitle : String := "Create Private Key Password"

/-- The polling loop `for _ in xrange(20): if shell.AppActivate(...): break;
time.sleep(0.5)` (pywincert.py lines 114-117 and 178-181).  `env n` is the
result of the n-th `AppActivate` call (calls are numbered from 1); `i` is
the number of the next call; the fuel argument is the remaining loop
iterations.  Returns the number of the next `AppActivate` call after the
loop together with the events the loop emitted. -/
def pollLoop (env : Nat → Bool) (i : Nat) : Nat → Nat × List Event
  | 0 => (i, [])
  | fuel + 1 =>
    if env i then (i + 1, [Event.appActivate popupTitle true])
    else
      let r := pollLoop env (i + 1) fuel
      (r.1, Event.appActivate popupTitle false :: Event.sleepTenths 5 :: r.2)

/-- Launch plus wait-for-popup phase shared verbatim by both responders
(pywincert.py lines 109-119 and 173-183): run the command, poll up to 20
times, then re-check `AppActivate` once more (`if not shell.AppActivate`). -/
def waitPhase (cmd : String) (env : Nat → Bool) : List Event × Bool :=
  let p := pollLoop env 1 20
  (Event.launch cmd :: p.2 ++ [Event.appActivate popupTitle (env p.1)], env p.1)

/-- Keystroke schedule of the first screen, `Create Private Key Password`
(pywincert.py lines 125-134 and 187-196): password, TAB, password, TAB,
ENTER, each followed by a settle delay (0.2s; 0.5s after the ENTER). -/
def screen1Keys (password : String) : List Event :=
  [Event.sendKeys password, Event.sleepTenths 2,
   Event.sendKeys "{TAB}", Event.sleepTenths 2,
   Event.sendKeys password, Event.sleepTenths 2,
   Event.sendKeys "{TAB}", Event.sleepTenths 2,
   Event.sendKeys "{ENTER}", Event.sleepTenths 5]

/-- Keystroke schedule of the later screens (pywincert.py lines 138-143,
200-205 and 209-214): password, TAB, ENTER with settle delays. -/
def screen2Keys (password : String) : List Event :=
  [Event.sendKeys password, Event.sleepTenths 2,
   Event.sendKeys "{TAB}", Event.sleepTenths 2,
   Event.sendKeys "{ENTER}", Event.sleepTenths 5]

/-- `run_makecert_authority` (pywincert.py lines 88-145): launch, wait for
the popup, raise on timeout; otherwise an extra 0.2s settle delay
(line 121), then the two screens' keystroke schedules. -/
def run_makecert_authority (cmd password : String) (env : Nat → Bool) :
    RunResult :=
  let w := waitPhase cmd env
  if w.2 then
    { trace := w.1 ++ Event.sleepTenths 2 ::
        (screen1Keys password ++ screen2Keys password),
      result := Except.ok () }
  else
    { trace := w.1,
      result := Except.error "timeout waiting for makecert popup(1)" }

/-- `run_makecert_enduser` (pywincert.py lines 148-216): launch, wait for
the popup, raise on timeout; otherwise the three screens' keystroke
schedules (no settle delay between the wait and the first screen). -/
def run_makecert_enduser (cmd password : String) (env : Nat → Bool) :
    RunResult :=
  let w := waitPhase cmd env
  if w.2 then
    { trace := w.1 ++ (screen1Keys password ++ screen2Keys password ++
        screen2Keys password),
      result := Except.ok () }
  else
    { trace := w.1,
      result := Except.error "timeout waiting for makecert popup(1)" }

/-- Recognise a keystroke-injection event. -/
def isSendKeys : Event → Bool
  | Event.sendKeys _ => true
  | _ => false

/-- Recognise a failed `AppActivate` poll. -/
def isFailedPoll : Event → Bool
  | Event.appActivate _ b => !b
  | _ => false

/-- Number of keystroke injections in a trace. -/
def countSendKeys (t : List Event) : Nat := t.countP isSendKeys

/-- Number of failed `AppActivate` calls in a trace. -/
def countFailedPolls (t : List Event) : Nat := t.countP isFailedPoll

/-- Window-manager oracle for the simulated scenario of the spec: the
expected title becomes available at the K-th `AppActivate` call (calls
numbered from 1) and stays available. -/
def availableFrom (K : Nat) : Nat → Bool := fun n => decide (K ≤ n)

/-! ### sign_code (pywincert.py lines 362-391) -/

/-- The ordered timestamp endpoints of `sign_code` (lines 365-369). -/
def timestamp_urls : List String :=
  ["http://timestamp.comodoca.com/authenticode",
   "http://timestamp.verisign.com/scripts/timstamp.dll",
   "http://timestamp.globalsign.com/scripts/timestamp.dll",
   "http://tsa.starfieldtech.com"]

/-- One signtool invocation of `sign_code`: the endpoint used and the exit
code the tool returned. -/
structure SignAttempt where
  url : String
  returncode : Nat
  deriving DecidableEq, Repr

/-- Outcome of `sign_code`: the invocations made in order, the invocations
at which `LOG.error(stderr)` was called, and the result. -/
structure SignRun where
  attempts : List SignAttempt
  errorsLogged : List SignAttempt
  result : Except String Unit
  deriving Repr

/-- The retry loop of `sign_code` (lines 372-391).  `env n` is the exit
code of the (n+1)-th signtool invocation.  Exit code 2 logs a debug line
and continues to the next endpoint; any other nonzero exit logs the
captured output as an error and then falls through to `return`; exit 0
falls through to `return` directly.  Exhausting the list raises. -/
def sign_loop (env : Nat → Nat) (exe : String) (i : Nat) :
    List String → SignRun
  | [] => ⟨[], [], Except.error ("retries exhausted signing " ++ exe)⟩
  | turl :: rest =>
    let rc := env i
    if rc = 2 then
      let r := sign_loop env exe (i + 1) rest
      ⟨⟨turl, rc⟩ :: r.attempts, r.errorsLogged, r.result⟩
    else if rc = 0 then ⟨[⟨turl, rc⟩], [], Except.ok ()⟩
    else ⟨[⟨turl, rc⟩], [⟨turl, rc⟩], Except.ok ()⟩

/-- `sign_code` (lines 362-391): try the fixed endpoint list in order. -/
def sign_code (env : Nat → Nat) (exe : String) : SignRun :=
  sign_loop env exe 0 timestamp_urls

/-! ### Store adapter: remove_cert_fromstore / remove_ca
(pywincert.py lines 264-293) -/

/-- A character matched by the character class of the serial-number regex
`[a-f\d]+` (line 275): lowercase a-f or a decimal digit. -/
def isSerialChar (c : Char) : Bool :=
  (decide ('a' ≤ c) && decide (c ≤ 'f')) ||
  (decide ('0' ≤ c) && decide (c ≤ '9'))

/-- `output.split("\n")` (line 274), character by character: cut the
string at every newline, keeping empty pieces.  `acc` holds the
characters of the current piece in reverse. -/
def splitLinesAux (acc : List Char) : List Char → List String
  | [] => [String.mk acc.reverse]
  | c :: cs =>
    if c = '\n' then String.mk acc.reverse :: splitLinesAux [] cs
    else splitLinesAux (c :: acc) cs

/-- `output.split("\n")` (line 274). -/
def splitLines (s : String) : List String := splitLinesAux [] s.toList

/-- `re.match` of one output line against the pattern
`^Serial Number: ([a-f\d]+)$` (lines 274-277): the line must be exactly
the literal prefix followed by one or more serial characters; on a match
the captured group (the serial) is returned. -/
def matchSerialLine (line : String) : Option String :=
  let cs := line.toList
  if "Serial Number: ".toList.isPrefixOf cs then
    let rest := cs.drop 15
    if rest.length ≠ 0 && rest.all isSerialChar then some (String.mk rest)
    else none
  else none

/-- The parsing loop of `remove_cert_fromstore` (lines 273-277): split the
utility output on newlines and collect the serial of every matching line,
in order. -/
def extractSerials (output : String) : List String :=
  (splitLines output).filterMap matchSerialLine

/-- Store-related observable effects. -/
inductive StoreEvent where
  | query (store certid : String)
  | delete (store serial : String)
  deriving DecidableEq, Repr

/-- Environment of the store adapter: the text `certutil -store` prints
for a given store and certid, and whether that query and each
`certutil -delstore` invocation exit successfully. -/
structure StoreEnv where
  storeOutput : String → String → String
  queryOk : String → String → Bool
  delOk : String → String → Bool

/-- Outcome of a store operation: trace of store events plus result. -/
structure StoreRun where
  trace : List StoreEvent
  result : Except String Unit
  deriving Repr

/-- The deletion loop of `remove_cert_fromstore` (lines 281-284): invoke
`certutil -delstore` once per extracted serial, in order; a failing
invocation raises immediately. -/
def deleteLoop (env : StoreEnv) (store : String) :
    List String → List StoreEvent × Except String Unit
  | [] => ([], Except.ok ())
  | s :: rest =>
    if env.delOk store s then
      let r := deleteLoop env store rest
      (StoreEvent.delete store s :: r.1, r.2)
    else ([StoreEvent.delete store s],
          Except.error "CalledProcessError: certutil -delstore")

/-- `remove_cert_fromstore` (lines 264-284): query the store, extract the
serial numbers from the output, raise if none matched, otherwise delete
each extracted serial. -/
def remove_cert_fromstore (env : StoreEnv) (certid store : String) :
    StoreRun :=
  if env.queryOk store certid then
    let snums := extractSerials (env.storeOutput store certid)
    if snums.isEmpty then
      { trace := [StoreEvent.query store certid],
        result := Except.error
          ("no certificate with matching certid " ++ certid) }
    else
      let d := deleteLoop env store snums
      { trace := StoreEvent.query store certid :: d.1, result := d.2 }
  else
    { trace := [StoreEvent.query store certid],
      result := Except.error "CalledProcessError: certutil -store" }

/-- `remove_ca` (lines 287-293): remove from the Root store, then from
the CA store; an exception from the first call propagates before the
second store is touched. -/
def remove_ca (env : StoreEnv) (certid : String) : StoreRun :=
  let r1 := remove_cert_fromstore env certid "Root"
  match r1.result with
  | Except.error e => { trace := r1.trace, result := Except.error e }
  | Except.ok () =>
    let r2 := remove_cert_fromstore env certid "CA"
    { trace := r1.trace ++ r2.trace, result := r2.result }

/-! ### make_ca (pywincert.py lines 219-261)

Times are modelled as whole hours since an epoch and calendar dates as
whole-day numbers since the same epoch; the `MM/DD/YYYY` formatting of
`strftime` is injective on day numbers, so two dates are rendered equal
iff their day numbers are equal. -/

/-- `datetime.date()` of a time given in hours since the epoch: its day
number. -/
def dateOfHours (t : Nat) : Int := (t / 24 : Nat)

/-- The `.days` component of Python's `datetime.timedelta(hours=h)` for
h ≥ 0: the timedelta is normalised to whole days plus a sub-day
remainder, and adding a timedelta to a `datetime.date` uses only the
`.days` component (the remainder is discarded). -/
def timedeltaHoursDays (h : Nat) : Int := (h / 24 : Nat)

/-- Begin day of the validity window of `make_ca` (line 233):
`now.date() - datetime.timedelta(days=1)`. -/
def make_ca_beg_day (nowHours : Nat) : Int := dateOfHours nowHours - 1

/-- End day of the validity window of `make_ca` (line 235):
`now.date() + datetime.timedelta(hours=valid_hours)` — a timedelta of
hours added to a date, so only its whole-day part counts. -/
def make_ca_end_day (nowHours valid_hours : Nat) : Int :=
  dateOfHours nowHours + timedeltaHoursDays valid_hours

/-- Modelled from the spec's words (for comparison with
`make_ca_end_day`): the day number of the MM/DD/YYYY rendering of "the
current time plus valid_hours hours". -/
def spec_end_day (nowHours valid_hours : Nat) : Int :=
  ((nowHours + valid_hours) / 24 : Nat)

/-- `os.path.join` for two components on Windows. -/
def joinPath (a b : String) : String := a ++ "\\" ++ b

/-- The makecert command line built by `make_ca` (lines 238-251), with
the two validity dates given by their day numbers. -/
def makecertAuthorityCmd (mkcert : String) (beg endd : Int)
    (subject pvk cer : String) : String :=
  "\"" ++ mkcert ++ "\" -r -a sha1 -pe -b " ++ toString beg ++ " -e " ++
  toString endd ++ " -n \"CN=" ++ subject ++ "\" -ss CA -sr LocalMachine " ++
  "-cy authority -sky signature -sv \"" ++ pvk ++ "\" \"" ++ cer ++ "\""

/-- The guidance text appended to the missing-registry-entry error
(lines 69-71). -/
def WINSDK_ERROR : String :=
  "Windows SDK may not be installed on this machine. " ++
  "You can read more and (re-)download from " ++
  "https://en.wikipedia.org/wiki/Microsoft_Windows_SDK"

/-- Environment of `make_ca`: the registry value `get_winsdk_path` reads
(none = key absent), file existence as observed at each `os.path.isfile`
query, the window-manager oracle for the popup responder, and whether
`certutil -addstore` exits successfully. -/
structure CaEnv where
  sdkPath : Option String
  isfile : String → Bool
  activateAt : Nat → Bool
  addstoreOk : Bool

/-- `make_ca` (lines 219-261): locate makecert, compute the validity
window, run makecert through the 2-dialog responder, verify that both
output files exist (raising on the first missing one), then add the
certificate to the Root store. -/
def make_ca (env : CaEnv) (subject password pvk_filename cer_filename : String)
    (valid_hours nowHours : Nat) : RunResult :=
  match env.sdkPath with
  | none =>
    { trace := [],
      result := Except.error
        ("missing windows sdk registry entry: " ++ WINSDK_ERROR) }
  | some sdk =>
    let mkcert := joinPath (joinPath sdk "Bin") "makecert.exe"
    if env.isfile mkcert then
      let beg := make_ca_beg_day nowHours
      let endd := make_ca_end_day nowHours valid_hours
      let cmd := makecertAuthorityCmd mkcert beg endd subject
                   pvk_filename cer_filename
      let r := run_makecert_authority cmd password env.activateAt
      match r.result with
      | Except.error e => { trace := r.trace, result := Except.error e }
      | Except.ok () =>
        if env.isfile pvk_filename then
          if env.isfile cer_filename then
            let t := r.trace ++ [Event.addStore "Root" cer_filename]
            if env.addstoreOk then { trace := t, result := Except.ok () }
            else { trace := t,
                   result := Except.error
                     "CalledProcessError: certutil -addstore" }
          else
            { trace := r.trace,
              result := Except.error
                ("makecert(CA) did not create " ++ cer_filename) }
        else
          { trace := r.trace,
            result := Except.error
              ("makecert(CA) did not create " ++ pvk_filename) }
    else
      { trace := [], result := Except.error ("missing " ++ mkcert) }

/-! ### make_pfx (pywincert.py lines 296-359) -/

/-- The makecert command line built by `make_pfx` (lines 319-328). -/
def makecertEnduserCmd (mkcert subject ca_cer ca_pvk pvk cer : String) :
    String :=
  "\"" ++ mkcert ++ "\" -pe -n \"CN=" ++ subject ++ "\" -cy end " ++
  "-sky signature -ic " ++ ca_cer ++ " -iv " ++ ca_pvk ++
  " -sv \"" ++ pvk ++ "\" \"" ++ cer ++ "\""

/-- Environment of `make_pfx`: the registry value, the scratch directory
`tempfile.mkdtemp` allocates, the window-manager oracle, file existence
at the post-run checks, and whether cert2spc / pvk2pfx exit
successfully. -/
structure PfxEnv where
  sdkPath : Option String
  tmpd : String
  activateAt : Nat → Bool
  isfile : String → Bool
  cert2spcOk : Bool
  pvk2pfxOk : Bool

/-- Outcome of `make_pfx`: the event trace plus either the returned value
(0) or the raised exception. -/
structure PfxRun where
  trace : List Event
  result : Except String Nat
  deriving Repr

/-- The body of `make_pfx`'s `try` block (lines 317-355): run makecert
through the 3-dialog responder, verify its outputs, convert the
certificate with cert2spc, then package key and certificate with
pvk2pfx. -/
def make_pfx_body (env : PfxEnv) (ca_subject password ca_pvk_filename
    ca_cer_filename pfx_filename sdkpath pvk cer spc : String) : PfxRun :=
  let mkcert := joinPath sdkpath "makecert.exe"
  let cert2spc := joinPath sdkpath "cert2spc.exe"
  let pvk2pfx := joinPath sdkpath "pvk2pfx.exe"
  let cmd := makecertEnduserCmd mkcert ca_subject ca_cer_filename
               ca_pvk_filename pvk cer
  let r := run_makecert_enduser cmd password env.activateAt
  match r.result with
  | Except.error e => { trace := r.trace, result := Except.error e }
  | Except.ok () =>
    if env.isfile pvk then
      if env.isfile cer then
        let t1 := r.trace ++ [Event.toolCall [cert2spc, cer, spc]]
        if env.cert2spcOk then
          let t2 := t1 ++ [Event.toolCall
            [pvk2pfx, "-pvk", pvk, "-pi", password, "-spc", spc, "-f",
             "-pfx", pfx_filename, "-po", password]]
          if env.pvk2pfxOk then { trace := t2, result := Except.ok 0 }
          else { trace := t2,
                 result := Except.error ("error running " ++ pvk2pfx) }
        else { trace := t1,
               result := Except.error ("error running " ++ cert2spc) }
      else
        { trace := r.trace,
          result := Except.error ("makecert(end) did not create " ++ cer) }
    else
      { trace := r.trace,
        result := Except.error ("makecert(end) did not create " ++ pvk) }

/-- `make_pfx` (lines 296-359): locate the SDK, allocate a scratch
directory, run the body under `try`, and in the `finally` block remove
the scratch directory whatever the body did; the body's result (return
or exception) then propagates. -/
def make_pfx (env : PfxEnv) (ca_subject password ca_pvk_filename
    ca_cer_filename pfx_filename : String) : PfxRun :=
  match env.sdkPath with
  | none =>
    { trace := [],
      result := Except.error
        ("missing windows sdk registry entry: " ++ WINSDK_ERROR) }
  | some sdk =>
    let sdkpath := joinPath sdk "Bin"
    let tmpd := env.tmpd
    let pvk := joinPath tmpd "mykey.pvk"
    let cer := joinPath tmpd "mycert.cer"
    let spc := joinPath tmpd "mycert.spc"
    let b := make_pfx_body env ca_subject password ca_pvk_filename
               ca_cer_filename pfx_filename sdkpath pvk cer spc
    { trace := Event.mkdtemp tmpd :: b.trace ++ [Event.removeTree tmpd],
      result := b.result }

/-- The restriction of an end-user responder trace to its first two
dialogs: drop the 6 events of the third screen's keystroke schedule. -/
def restrictFirstTwo (t : List Event) : List Event := t.take (t.length - 6)

/-- Whether the popup responders' wait phase succeeds under a given
window-manager oracle: the post-loop `AppActivate` re-check — whose call
number is whatever the polling loop left off at — returns true. -/
def popupFound (env : Nat → Bool) : Bool := env (pollLoop env 1 20).1

/-- Recognise a store-mutation (`certutil -delstore`) event. -/
def isDeleteEvent : StoreEvent → Bool
  | StoreEvent.delete _ _ => true
  | _ => false

/-- The store mutations in a store-adapter trace, in order. -/
def deleteEvents (t : List StoreEvent) : List StoreEvent :=
  t.filter isDeleteEvent

/-! ### Helper lemmas: the polling loop under the `availableFrom` oracle -/

/-- Events of `n` consecutive failed poll iterations: a failed
`AppActivate` followed by a 0.5s sleep, `n` times. -/
def failEvents : Nat → List Event
  | 0 => []
  | n + 1 => Event.appActivate popupTitle false :: Event.sleepTenths 5 ::
      failEvents n

lemma pollLoop_exhausted (K : Nat) : ∀ (fuel i : Nat), i + fuel ≤ K →
    pollLoop (availableFrom K) i fuel = (i + fuel, failEvents fuel) := by
  intro fuel
  induction fuel with
  | zero => intro i _; simp [pollLoop, failEvents]
  | succ f ih =>
    intro i h
    have hb : availableFrom K i = false := decide_eq_false (by omega)
    simp only [pollLoop, hb, Bool.false_eq_true, if_false,
      ih (i + 1) (by omega)]
    rw [show i + (f + 1) = i + 1 + f from by omega]
    rfl

lemma pollLoop_found (K : Nat) : ∀ (fuel i : Nat), i ≤ K → K < i + fuel →
    pollLoop (availableFrom K) i fuel =
      (K + 1, failEvents (K - i) ++ [Event.appActivate popupTitle true]) := by
  intro fuel
  induction fuel with
  | zero => intro i h1 h2; omega
  | succ f ih =>
    intro i h1 h2
    by_cases hK : K ≤ i
    · have hiK : i = K := by omega
      subst hiK
      simp [pollLoop, availableFrom, failEvents]
    · have hb : availableFrom K i = false := decide_eq_false hK
      have hsub : K - i = (K - (i + 1)) + 1 := by omega
      simp only [pollLoop, hb, Bool.false_eq_true, if_false,
        ih (i + 1) (by omega) (by omega), hsub, failEvents]
      simp

lemma countP_failEvents_failed (n : Nat) :
    List.countP isFailedPoll (failEvents n) = n := by
  induction n with
  | zero => simp [failEvents]
  | succ m ih =>
    simp [failEvents, List.countP_cons, isFailedPoll] at *
    omega

lemma countP_failEvents_send (n : Nat) :
    List.countP isSendKeys (failEvents n) = 0 := by
  induction n with
  | zero => simp [failEvents]
  | succ m ih =>
    simp [failEvents, List.countP_cons, isSendKeys] at *
    exact ih

lemma waitPhase_found (cmd : String) (K : Nat) (h1 : 1 ≤ K) (h2 : K ≤ 20) :
    waitPhase cmd (availableFrom K) =
      (Event.launch cmd ::
        (failEvents (K - 1) ++ [Event.appActivate popupTitle true]) ++
        [Event.appActivate popupTitle true], true) := by
  have hp := pollLoop_found K 20 1 h1 (by omega)
  have henv : availableFrom K (K + 1) = true := decide_eq_true (Nat.le_succ K)
  simp [waitPhase, hp, henv]

lemma waitPhase_late (cmd : String) :
    waitPhase cmd (availableFrom 21) =
      (Event.launch cmd :: failEvents 20 ++
        [Event.appActivate popupTitle true], true) := by
  have hp := pollLoop_exhausted 21 20 1 (by omega)
  have henv : availableFrom 21 21 = true := by decide
  simp [waitPhase, hp, henv]

lemma waitPhase_never (cmd : String) (K : Nat) (h : 22 ≤ K) :
    waitPhase cmd (availableFrom K) =
      (Event.launch cmd :: failEvents 20 ++
        [Event.appActivate popupTitle false], false) := by
  have hp := pollLoop_exhausted K 20 1 (by omega)
  have henv : availableFrom K 21 = false := decide_eq_false (by omega)
  simp [waitPhase, hp, henv]

lemma restrictFirstTwo_concat (x c : List Event) (hc : c.length = 6) :
    restrictFirstTwo (x ++ c) = x := by
  have h : (x ++ c).length - 6 = x.length := by
    rw [List.length_append, hc]
    omega
  rw [restrictFirstTwo, h, List.take_left]

lemma sign_loop_prefix2 (env : Nat → Nat) (exe : String) :
    ∀ (n : Nat) (l : List String) (i : Nat), n < l.length →
      (∀ j, j < n → env (i + j) = 2) → env (i + n) ≠ 2 →
      sign_loop env exe i l =
        ⟨(l.take n).map (fun u => SignAttempt.mk u 2) ++
           [SignAttempt.mk (l.getD n "") (env (i + n))],
         if env (i + n) = 0 then []
         else [SignAttempt.mk (l.getD n "") (env (i + n))],
         Except.ok ()⟩ := by
  intro n
  induction n with
  | zero =>
    intro l i hlen _ hstop
    match l with
    | u :: rest =>
      have hi : i + 0 = i := by omega
      rw [hi] at hstop
      by_cases hz : env i = 0
      · simp [sign_loop, hstop, hz, List.getD]
      · simp [sign_loop, hstop, hz, List.getD]
  | succ m ih =>
    intro l i hlen hpre hstop
    match l with
    | u :: rest =>
      have h0 : env i = 2 := by
        have := hpre 0 (by omega)
        simpa using this
      have hpre' : ∀ j, j < m → env (i + 1 + j) = 2 := by
        intro j hj
        have := hpre (j + 1) (by omega)
        rw [show i + 1 + j = i + (j + 1) from by omega]
        exact this
      have hstop' : env (i + 1 + m) ≠ 2 := by
        rw [show i + 1 + m = i + (m + 1) from by omega]
        exact hstop
      have hrec := ih rest (i + 1) (by simpa using hlen) hpre' hstop'
      rw [show i + (m + 1) = i + 1 + m from by omega]
      simp [sign_loop, h0, hrec, List.getD]

lemma sign_loop_all2 (env : Nat → Nat) (exe : String) :
    ∀ (l : List String) (i : Nat), (∀ j, j < l.length → env (i + j) = 2) →
      sign_loop env exe i l =
        ⟨l.map (fun u => SignAttempt.mk u 2), [],
         Except.error ("retries exhausted signing " ++ exe)⟩ := by
  intro l
  induction l with
  | nil => intro i _; simp [sign_loop]
  | cons u rest ih =>
    intro i hall
    have h0 : env i = 2 := by
      have := hall 0 (by simp)
      simpa using this
    have hall' : ∀ j, j < rest.length → env (i + 1 + j) = 2 := by
      intro j hj
      have := hall (j + 1) (by simp; omega)
      rw [show i + 1 + j = i + (j + 1) from by omega]
      exact this
    simp [sign_loop, h0, ih (i + 1) hall']

lemma deleteLoop_all_ok (env : StoreEnv) (store : String)
    (hdel : ∀ s, env.delOk store s = true) :
    ∀ l : List String,
      deleteLoop env store l = (l.map (StoreEvent.delete store),
        Except.ok ()) := by
  intro l
  induction l with
  | nil => simp [deleteLoop]
  | cons s rest ih => simp [deleteLoop, hdel s, ih]

lemma remove_cert_fromstore_no_match (env : StoreEnv) (certid store : String)
    (hq : env.queryOk store certid = true)
    (hz : extractSerials (env.storeOutput store certid) = []) :
    remove_cert_fromstore env certid store =
      { trace := [StoreEvent.query store certid],
        result := Except.error
          ("no certificate with matching certid " ++ certid) } := by
  simp [remove_cert_fromstore, hq, hz]

lemma remove_cert_fromstore_matches (env : StoreEnv) (certid store : String)
    (hq : env.queryOk store certid = true)
    (hnz : extractSerials (env.storeOutput store certid) ≠ [])
    (hdel : ∀ s, env.delOk store s = true) :
    remove_cert_fromstore env certid store =
      { trace := StoreEvent.query store certid ::
          (extractSerials (env.storeOutput store certid)).map
            (StoreEvent.delete store),
        result := Except.ok () } := by
  have he : (extractSerials (env.storeOutput store certid)).isEmpty = false :=
    by simpa [List.isEmpty_iff] using hnz
  simp [remove_cert_fromstore, hq, he, deleteLoop_all_ok env store hdel]

lemma length_filterMap_eq_countP {α β : Type} (f : α → Option β) :
    ∀ l : List α, (l.filterMap f).length =
      l.countP (fun a => (f a).isSome) := by
  intro l
  induction l with
  | nil => simp
  | cons a rest ih =>
    cases hfa : f a with
    | none => simp [List.filterMap_cons, hfa, List.countP_cons, ih]
    | some b => simp [List.filterMap_cons, hfa, List.countP_cons, ih]

lemma run_makecert_authority_of_found (cmd pw : String) (env : Nat → Bool)
    (h : popupFound env = true) :
    run_makecert_authority cmd pw env =
      { trace := (waitPhase cmd env).1 ++ Event.sleepTenths 2 ::
          (screen1Keys pw ++ screen2Keys pw),
        result := Except.ok () } := by
  have hw : (waitPhase cmd env).2 = true := h
  simp [run_makecert_authority, hw]

lemma addStore_not_mem_pollLoop (env : Nat → Bool) (st fl : String) :
    ∀ (fuel i : Nat), Event.addStore st fl ∉ (pollLoop env i fuel).2 := by
  intro fuel
  induction fuel with
  | zero => intro i; simp [pollLoop]
  | succ f ih =>
    intro i
    by_cases h : env i
    · simp [pollLoop, h]
    · simp only [pollLoop, h, Bool.false_eq_true, if_false]
      simp [ih (i + 1)]

lemma addStore_not_mem_authority_trace (cmd pw st fl : String)
    (env : Nat → Bool) :
    Event.addStore st fl ∉ (run_makecert_authority cmd pw env).trace := by
  by_cases hb : env (pollLoop env 1 20).1 = true
  · simp [run_makecert_authority, waitPhase, hb, screen1Keys, screen2Keys,
      addStore_not_mem_pollLoop env st fl 20 1]
  · simp [run_makecert_authority, waitPhase, hb,
      addStore_not_mem_pollLoop env st fl 20 1]

/-! ### Claim C1 -/

/-- C1 (amended): for both popup responders, with the expected window
title becoming available at the K-th `AppActivate` call: whenever
K ≤ 21 the responder proceeds to the keystroke schedule after exactly
K − 1 failed polls (for K ≤ 20 it leaves the polling loop at attempt K
and not earlier; for K = 21 the post-loop `AppActivate` re-check
succeeds), sending the full schedule (8 keystrokes in the authority
flow, 11 in the end-user flow); only for K ≥ 22 does it raise the
timeout error, having sent zero keystrokes.  The effective budget is
thus 21 activation attempts, not the 20 of the polling loop alone. -/
theorem c1_popup_wait_budget (cmd pw : String) (K : Nat) (h1 : 1 ≤ K) :
    (K ≤ 21 →
      (run_makecert_authority cmd pw (availableFrom K)).result =
        Except.ok () ∧
      countFailedPolls
        (run_makecert_authority cmd pw (availableFrom K)).trace = K - 1 ∧
      countSendKeys
        (run_makecert_authority cmd pw (availableFrom K)).trace = 8 ∧
      (run_makecert_enduser cmd pw (availableFrom K)).result =
        Except.ok () ∧
      countFailedPolls
        (run_makecert_enduser cmd pw (availableFrom K)).trace = K - 1 ∧
      countSendKeys
        (run_makecert_enduser cmd pw (availableFrom K)).trace = 11) ∧
    (22 ≤ K →
      (run_makecert_authority cmd pw (availableFrom K)).result =
        Except.error "timeout waiting for makecert popup(1)" ∧
      countSendKeys
        (run_makecert_authority cmd pw (availableFrom K)).trace = 0 ∧
      (run_makecert_enduser cmd pw (availableFrom K)).result =
        Except.error "timeout waiting for makecert popup(1)" ∧
      countSendKeys
        (run_makecert_enduser cmd pw (availableFrom K)).trace = 0) := by
  constructor
  · intro h2
    by_cases h20 : K ≤ 20
    · have hw := waitPhase_found cmd K h1 h20
      simp [run_makecert_authority, run_makecert_enduser, hw,
        countFailedPolls, countSendKeys, List.countP_append,
        List.countP_cons, isFailedPoll, isSendKeys, screen1Keys,
        screen2Keys, countP_failEvents_failed, countP_failEvents_send]
    · have h21 : K = 21 := by omega
      subst h21
      have hw := waitPhase_late cmd
      simp [run_makecert_authority, run_makecert_enduser, hw,
        countFailedPolls, countSendKeys, List.countP_append,
        List.countP_cons, isFailedPoll, isSendKeys, screen1Keys,
        screen2Keys, countP_failEvents_failed, countP_failEvents_send]
  · intro h2
    have hw := waitPhase_never cmd K h2
    simp [run_makecert_authority, run_makecert_enduser, hw,
      countFailedPolls, countSendKeys, List.countP_append,
      List.countP_cons, isFailedPoll, isSendKeys,
      countP_failEvents_failed, countP_failEvents_send]

/-- C1 counterexample: with the title becoming available only at the
21st `AppActivate` call — one past the claimed 20-attempt budget — both
responders still proceed (the post-loop re-check succeeds) and send
their full keystroke schedules instead of raising a timeout with zero
keystrokes. -/
theorem c1_popup_wait_budget_counterexample :
    (run_makecert_authority "makecert" "pw" (availableFrom 21)).result =
      Except.ok () ∧
    countSendKeys
      (run_makecert_authority "makecert" "pw" (availableFrom 21)).trace = 8 ∧
    (run_makecert_enduser "makecert" "pw" (availableFrom 21)).result =
      Except.ok () ∧
    countSendKeys
      (run_makecert_enduser "makecert" "pw" (availableFrom 21)).trace = 11 :=
  ⟨rfl, rfl, rfl, rfl⟩

/-- C1 witness: the amended theorem applied at K = 3. -/
theorem c1_popup_wait_budget_witness :
    1 ≤ 3 ∧
    ((3 ≤ 21 →
      (run_makecert_authority "makecert" "pw" (availableFrom 3)).result =
        Except.ok () ∧
      countFailedPolls
        (run_makecert_authority "makecert" "pw" (availableFrom 3)).trace =
        3 - 1 ∧
      countSendKeys
        (run_makecert_authority "makecert" "pw" (availableFrom 3)).trace = 8 ∧
      (run_makecert_enduser "makecert" "pw" (availableFrom 3)).result =
        Except.ok () ∧
      countFailedPolls
        (run_makecert_enduser "makecert" "pw" (availableFrom 3)).trace =
        3 - 1 ∧
      countSendKeys
        (run_makecert_enduser "makecert" "pw" (availableFrom 3)).trace = 11) ∧
    (22 ≤ 3 →
      (run_makecert_authority "makecert" "pw" (availableFrom 3)).result =
        Except.error "timeout waiting for makecert popup(1)" ∧
      countSendKeys
        (run_makecert_authority "makecert" "pw" (availableFrom 3)).trace = 0 ∧
      (run_makecert_enduser "makecert" "pw" (availableFrom 3)).result =
        Except.error "timeout waiting for makecert popup(1)" ∧
      countSendKeys
        (run_makecert_enduser "makecert" "pw" (availableFrom 3)).trace = 0)) :=
  ⟨by decide, c1_popup_wait_budget "makecert" "pw" 3 (by decide)⟩

/-! ### Claim C9 -/

/-- C9 (amended): for the same command, password and window-manager
oracle, the two responders succeed or fail together; on failure their
traces are identical; and on success the schedule emitted by
`run_makecert_authority` equals the schedule of `run_makecert_enduser`
restricted to its first two dialogs *except* that the authority variant
inserts one extra 0.2s settle delay between the successful window
activation and the first keystroke (pywincert.py line 121, absent from
`run_makecert_enduser`). -/
theorem c9_responder_schedules (cmd pw : String) (env : Nat → Bool) :
    (run_makecert_authority cmd pw env).result =
      (run_makecert_enduser cmd pw env).result ∧
    ((run_makecert_authority cmd pw env).result = Except.ok () →
      (run_makecert_authority cmd pw env).trace =
        (waitPhase cmd env).1 ++ Event.sleepTenths 2 ::
          (screen1Keys pw ++ screen2Keys pw) ∧
      restrictFirstTwo (run_makecert_enduser cmd pw env).trace =
        (waitPhase cmd env).1 ++ (screen1Keys pw ++ screen2Keys pw)) ∧
    (∀ msg,
      (run_makecert_authority cmd pw env).result = Except.error msg →
      (run_makecert_authority cmd pw env).trace =
        (run_makecert_enduser cmd pw env).trace) := by
  by_cases hb : (waitPhase cmd env).2 = true
  · refine ⟨?_, ?_, ?_⟩
    · simp [run_makecert_authority, run_makecert_enduser, hb]
    · intro _
      constructor
      · simp [run_makecert_authority, hb]
      · have hr : (run_makecert_enduser cmd pw env).trace =
            ((waitPhase cmd env).1 ++ (screen1Keys pw ++ screen2Keys pw)) ++
              screen2Keys pw := by
          simp [run_makecert_enduser, hb]
        rw [hr, restrictFirstTwo_concat _ (screen2Keys pw) rfl]
    · intro msg hmsg
      simp [run_makecert_authority, hb] at hmsg
  · have hb' : (waitPhase cmd env).2 = false := by
      simpa using hb
    refine ⟨?_, ?_, ?_⟩
    · simp [run_makecert_authority, run_makecert_enduser, hb']
    · intro hok
      simp [run_makecert_authority, hb'] at hok
    · intro msg _
      simp [run_makecert_authority, run_makecert_enduser, hb']

/-- C9 counterexample: with the popup available immediately, the trace
of `run_makecert_authority` is *not* identical to the trace of
`run_makecert_enduser` restricted to its first two dialogs (the
authority variant has an extra 0.2s settle delay after activation). -/
theorem c9_responder_schedules_counterexample :
    (run_makecert_authority "makecert" "pw" (availableFrom 1)).trace ≠
      restrictFirstTwo
        (run_makecert_enduser "makecert" "pw" (availableFrom 1)).trace := by
  decide

/-- C9 witness: the amended theorem applied at a concrete command,
password and oracle. -/
theorem c9_responder_schedules_witness :
    (run_makecert_authority "makecert" "pw" (availableFrom 1)).result =
      (run_makecert_enduser "makecert" "pw" (availableFrom 1)).result ∧
    ((run_makecert_authority "makecert" "pw" (availableFrom 1)).result =
        Except.ok () →
      (run_makecert_authority "makecert" "pw" (availableFrom 1)).trace =
        (waitPhase "makecert" (availableFrom 1)).1 ++ Event.sleepTenths 2 ::
          (screen1Keys "pw" ++ screen2Keys "pw") ∧
      restrictFirstTwo
          (run_makecert_enduser "makecert" "pw" (availableFrom 1)).trace =
        (waitPhase "makecert" (availableFrom 1)).1 ++
          (screen1Keys "pw" ++ screen2Keys "pw")) ∧
    (∀ msg,
      (run_makecert_authority "makecert" "pw" (availableFrom 1)).result =
        Except.error msg →
      (run_makecert_authority "makecert" "pw" (availableFrom 1)).trace =
        (run_makecert_enduser "makecert" "pw" (availableFrom 1)).trace) :=
  c9_responder_schedules "makecert" "pw" (availableFrom 1)

/-! ### Claim C2 -/

/-- C2 (amended): in `sign_code`, exit code 2 is the *only* exit code
that advances the loop to the next timestamp endpoint.  When an attempt
returns any exit code other than 2 — zero or nonzero — the function
returns immediately after that attempt; a nonzero such exit code is
logged as an error (and a zero one is not), but in both cases no
further endpoint is tried and the function returns without raising. -/
theorem c2_sign_nonzero_returns (env : Nat → Nat) (exe : String) (n : Nat)
    (hn : n < 4) (hpre : ∀ i, i < n → env i = 2) (hstop : env n ≠ 2) :
    (sign_code env exe).attempts =
      (timestamp_urls.take n).map (fun u => SignAttempt.mk u 2) ++
        [SignAttempt.mk (timestamp_urls.getD n "") (env n)] ∧
    (sign_code env exe).attempts.length = n + 1 ∧
    (sign_code env exe).result = Except.ok () ∧
    (sign_code env exe).errorsLogged =
      (if env n = 0 then []
       else [SignAttempt.mk (timestamp_urls.getD n "") (env n)]) := by
  have hlen : n < timestamp_urls.length := by
    simpa [timestamp_urls] using hn
  have hpre' : ∀ j, j < n → env (0 + j) = 2 := by
    intro j hj
    rw [Nat.zero_add]
    exact hpre j hj
  have hstop' : env (0 + n) ≠ 2 := by
    rw [Nat.zero_add]
    exact hstop
  have h := sign_loop_prefix2 env exe n timestamp_urls 0 hlen hpre' hstop'
  rw [Nat.zero_add] at h
  refine ⟨?_, ?_, ?_, ?_⟩
  · rw [sign_code, h]
  · rw [sign_code, h]
    simp [List.length_take]
    omega
  · rw [sign_code, h]
  · rw [sign_code, h]

/-- C2 counterexample: with every endpoint exiting with code 1 (nonzero
and different from 2), `sign_code` makes exactly one invocation, logs
the error, and returns successfully — the loop does not advance to the
next endpoint, refuting both "still advances to the next timestamp
endpoint" and "only exit code 0 causes immediate successful return". -/
theorem c2_sign_nonzero_returns_counterexample :
    (sign_code (fun _ => 1) "app.exe").attempts.length = 1 ∧
    (sign_code (fun _ => 1) "app.exe").errorsLogged.length = 1 ∧
    (sign_code (fun _ => 1) "app.exe").result = Except.ok () :=
  ⟨rfl, rfl, rfl⟩

/-- C2 witness: the amended theorem applied with the first endpoint
exiting 2 and the second exiting 1. -/
theorem c2_sign_nonzero_returns_witness :
    1 < 4 ∧
    ((sign_code (fun i => if i = 0 then 2 else 1) "app.exe").attempts =
      (timestamp_urls.take 1).map (fun u => SignAttempt.mk u 2) ++
        [SignAttempt.mk (timestamp_urls.getD 1 "")
          ((fun i => if i = 0 then 2 else 1) 1)] ∧
    (sign_code (fun i => if i = 0 then 2 else 1) "app.exe").attempts.length =
      1 + 1 ∧
    (sign_code (fun i => if i = 0 then 2 else 1) "app.exe").result =
      Except.ok () ∧
    (sign_code (fun i => if i = 0 then 2 else 1) "app.exe").errorsLogged =
      (if (fun i => if i = 0 then 2 else 1) 1 = 0 then []
       else [SignAttempt.mk (timestamp_urls.getD 1 "")
         ((fun i => if i = 0 then 2 else 1) 1)])) :=
  ⟨by decide,
   c2_sign_nonzero_returns (fun i => if i = 0 then 2 else 1) "app.exe" 1
     (by decide)
     (by
       intro i hi
       have h : i = 0 := by omega
       subst h
       decide)
     (by decide)⟩

/-! ### Claim C3 -/

/-- C3: over the ordered endpoint list of `sign_code` (with an
unreachable/failing endpoint modelled by signtool exit code 2, as the
code and spec reserve it): if the first N endpoints exit 2 and the
(N+1)-th exits 0, the function returns successfully after exactly N + 1
invocations — never retrying past the success nor past the list — and
if every endpoint exits 2 it raises the exhausted-retries error after
exactly 4 invocations (the full list length). -/
theorem c3_sign_failover (env : Nat → Nat) (exe : String) (N : Nat) :
    (N < 4 → (∀ i, i < N → env i = 2) → env N = 0 →
      (sign_code env exe).result = Except.ok () ∧
      (sign_code env exe).attempts.length = N + 1) ∧
    ((∀ i, i < 4 → env i = 2) →
      (sign_code env exe).result =
        Except.error ("retries exhausted signing " ++ exe) ∧
      (sign_code env exe).attempts.length = 4) := by
  constructor
  · intro hN hpre hzero
    have hlen : N < timestamp_urls.length := by
      simpa [timestamp_urls] using hN
    have hpre' : ∀ j, j < N → env (0 + j) = 2 := by
      intro j hj
      rw [Nat.zero_add]
      exact hpre j hj
    have hstop' : env (0 + N) ≠ 2 := by
      rw [Nat.zero_add, hzero]
      omega
    have h := sign_loop_prefix2 env exe N timestamp_urls 0 hlen hpre' hstop'
    constructor
    · rw [sign_code, h]
    · rw [sign_code, h]
      simp [List.length_take]
      omega
  · intro hall
    have hall' : ∀ j, j < timestamp_urls.length → env (0 + j) = 2 := by
      intro j hj
      rw [Nat.zero_add]
      exact hall j (by simpa [timestamp_urls] using hj)
    have h := sign_loop_all2 env exe timestamp_urls 0 hall'
    constructor
    · rw [sign_code, h]
    · rw [sign_code, h]
      simp [timestamp_urls]

/-- C3 witness: the failover theorem applied with the first endpoint
exiting 2 and the second exiting 0, and (for the exhaustion branch) the
conjunction instantiated with an all-2 environment. -/
theorem c3_sign_failover_witness :
    ((sign_code (fun i => if i = 0 then 2 else 0) "app.exe").result =
      Except.ok () ∧
     (sign_code (fun i => if i = 0 then 2 else 0) "app.exe").attempts.length =
      1 + 1) ∧
    ((sign_code (fun _ => 2) "app.exe").result =
      Except.error ("retries exhausted signing " ++ "app.exe") ∧
     (sign_code (fun _ => 2) "app.exe").attempts.length = 4) :=
  ⟨(c3_sign_failover (fun i => if i = 0 then 2 else 0) "app.exe" 1).1
     (by decide)
     (by
       intro i hi
       have h : i = 0 := by omega
       subst h
       decide)
     (by decide),
   (c3_sign_failover (fun _ => 2) "app.exe" 0).2 (fun i _ => rfl)⟩

/-! ### Claim C4 -/

/-- C4 (amended): `remove_ca` processes the Root store and the CA store
sequentially, not independently: when the Root store reports zero
matches it raises the no-match error immediately and the CA store is
never queried (the trace is just the Root query); when Root matches but
CA reports zero matches it raises on the CA store; the removal
completes without error only when *both* stores report at least one
match. -/
theorem c4_remove_ca_both_stores (env : StoreEnv) (certid : String)
    (hqR : env.queryOk "Root" certid = true)
    (hqC : env.queryOk "CA" certid = true)
    (hdel : ∀ st s, env.delOk st s = true) :
    (extractSerials (env.storeOutput "Root" certid) = [] →
      (remove_ca env certid).result =
        Except.error ("no certificate with matching certid " ++ certid) ∧
      (remove_ca env certid).trace = [StoreEvent.query "Root" certid]) ∧
    (extractSerials (env.storeOutput "Root" certid) ≠ [] →
      extractSerials (env.storeOutput "CA" certid) = [] →
      (remove_ca env certid).result =
        Except.error ("no certificate with matching certid " ++ certid)) ∧
    (extractSerials (env.storeOutput "Root" certid) ≠ [] →
      extractSerials (env.storeOutput "CA" certid) ≠ [] →
      (remove_ca env certid).result = Except.ok ()) := by
  refine ⟨?_, ?_, ?_⟩
  · intro hz
    rw [remove_ca, remove_cert_fromstore_no_match env certid "Root" hqR hz]
    exact ⟨rfl, rfl⟩
  · intro hnzR hzC
    rw [remove_ca,
      remove_cert_fromstore_matches env certid "Root" hqR hnzR (hdel "Root"),
      remove_cert_fromstore_no_match env certid "CA" hqC hzC]
  · intro hnzR hnzC
    rw [remove_ca,
      remove_cert_fromstore_matches env certid "Root" hqR hnzR (hdel "Root"),
      remove_cert_fromstore_matches env certid "CA" hqC hnzC (hdel "CA")]

/-- C4 counterexample: with zero matches in the Root store but one match
in the CA store, `remove_ca` raises the no-match error anyway — a match
in the CA store alone is not sufficient — and its trace shows the CA
store was never even queried. -/
theorem c4_remove_ca_both_stores_counterexample :
    extractSerials "Serial Number: 0abc" = ["0abc"] ∧
    (remove_ca
      { storeOutput := fun st _ =>
          if st = "Root" then "" else "Serial Number: 0abc",
        queryOk := fun _ _ => true,
        delOk := fun _ _ => true } "myca").result =
      Except.error ("no certificate with matching certid " ++ "myca") ∧
    (remove_ca
      { storeOutput := fun st _ =>
          if st = "Root" then "" else "Serial Number: 0abc",
        queryOk := fun _ _ => true,
        delOk := fun _ _ => true } "myca").trace =
      [StoreEvent.query "Root" "myca"] :=
  ⟨by decide, rfl, by decide⟩

/-- C4 witness: the amended theorem applied to an environment whose two
stores both report one match. -/
theorem c4_remove_ca_both_stores_witness :
    (extractSerials
       ((fun (_ : String) (_ : String) => "Serial Number: 0abc") "Root" "myca")
        = [] →
      (remove_ca
        { storeOutput := fun _ _ => "Serial Number: 0abc",
          queryOk := fun _ _ => true,
          delOk := fun _ _ => true } "myca").result =
        Except.error ("no certificate with matching certid " ++ "myca") ∧
      (remove_ca
        { storeOutput := fun _ _ => "Serial Number: 0abc",
          queryOk := fun _ _ => true,
          delOk := fun _ _ => true } "myca").trace =
        [StoreEvent.query "Root" "myca"]) ∧
    (extractSerials
       ((fun (_ : String) (_ : String) => "Serial Number: 0abc") "Root" "myca")
        ≠ [] →
      extractSerials
       ((fun (_ : String) (_ : String) => "Serial Number: 0abc") "CA" "myca")
        = [] →
      (remove_ca
        { storeOutput := fun _ _ => "Serial Number: 0abc",
          queryOk := fun _ _ => true,
          delOk := fun _ _ => true } "myca").result =
        Except.error ("no certificate with matching certid " ++ "myca")) ∧
    (extractSerials
       ((fun (_ : String) (_ : String) => "Serial Number: 0abc") "Root" "myca")
        ≠ [] →
      extractSerials
       ((fun (_ : String) (_ : String) => "Serial Number: 0abc") "CA" "myca")
        ≠ [] →
      (remove_ca
        { storeOutput := fun _ _ => "Serial Number: 0abc",
          queryOk := fun _ _ => true,
          delOk := fun _ _ => true } "myca").result = Except.ok ()) :=
  c4_remove_ca_both_stores
    { storeOutput := fun _ _ => "Serial Number: 0abc",
      queryOk := fun _ _ => true,
      delOk := fun _ _ => true } "myca" rfl rfl (fun _ _ => rfl)

/-! ### Claim C5 -/

/-- C5: the number of serial numbers `remove_cert_fromstore` extracts
from the store-utility output equals exactly the number of output lines
matching the pattern `Serial Number: <lowercase-hex>` (no dedup, no
skips), and extracting zero serials makes the function raise the
no-match error. -/
theorem c5_serial_parsing (env : StoreEnv) (certid store : String)
    (hq : env.queryOk store certid = true) :
    (extractSerials (env.storeOutput store certid)).length =
      (splitLines (env.storeOutput store certid)).countP
        (fun l => (matchSerialLine l).isSome) ∧
    (extractSerials (env.storeOutput store certid) = [] →
      (remove_cert_fromstore env certid store).result =
        Except.error ("no certificate with matching certid " ++ certid)) := by
  constructor
  · exact length_filterMap_eq_countP matchSerialLine
      (splitLines (env.storeOutput store certid))
  · intro hz
    rw [remove_cert_fromstore_no_match env certid store hq hz]

/-- C5 witness: the parsing theorem applied to an environment whose
output has two matching lines among four (one non-matching, one with
uppercase hex — which the pattern rejects). -/
theorem c5_serial_parsing_witness :
    (extractSerials
       ((fun (_ : String) (_ : String) =>
          "junk\nSerial Number: ff01\nSerial Number: ABC\nSerial Number: 9")
         "Root" "myca")).length =
      (splitLines
        ((fun (_ : String) (_ : String) =>
          "junk\nSerial Number: ff01\nSerial Number: ABC\nSerial Number: 9")
         "Root" "myca")).countP
        (fun l => (matchSerialLine l).isSome) ∧
    (extractSerials
       ((fun (_ : String) (_ : String) =>
          "junk\nSerial Number: ff01\nSerial Number: ABC\nSerial Number: 9")
         "Root" "myca") = [] →
      (remove_cert_fromstore
        { storeOutput := fun _ _ =>
            "junk\nSerial Number: ff01\nSerial Number: ABC\nSerial Number: 9",
          queryOk := fun _ _ => true,
          delOk := fun _ _ => true } "myca" "Root").result =
        Except.error ("no certificate with matching certid " ++ "myca")) :=
  c5_serial_parsing
    { storeOutput := fun _ _ =>
        "junk\nSerial Number: ff01\nSerial Number: ABC\nSerial Number: 9",
      queryOk := fun _ _ => true,
      delOk := fun _ _ => true } "myca" "Root" rfl

/-! ### Claim C10 -/

/-- C10: `remove_cert_fromstore` is atomic on the no-match path and
order-preserving otherwise: with zero extracted serials it raises
before any `certutil -delstore` invocation (its trace contains no store
mutation), and with serials extracted (deletions succeeding) it invokes
delete-by-serial exactly once per extracted serial, in the order the
serials appear in the utility output. -/
theorem c10_delete_order (env : StoreEnv) (certid store : String)
    (hq : env.queryOk store certid = true) :
    (extractSerials (env.storeOutput store certid) = [] →
      (remove_cert_fromstore env certid store).result =
        Except.error ("no certificate with matching certid " ++ certid) ∧
      deleteEvents (remove_cert_fromstore env certid store).trace = []) ∧
    ((∀ s, env.delOk store s = true) →
      deleteEvents (remove_cert_fromstore env certid store).trace =
        (extractSerials (env.storeOutput store certid)).map
          (StoreEvent.delete store)) := by
  constructor
  · intro hz
    rw [remove_cert_fromstore_no_match env certid store hq hz]
    exact ⟨rfl, rfl⟩
  · intro hdel
    by_cases hz : extractSerials (env.storeOutput store certid) = []
    · rw [remove_cert_fromstore_no_match env certid store hq hz, hz]
      rfl
    · rw [remove_cert_fromstore_matches env certid store hq hz hdel]
      simp only [deleteEvents, List.filter_cons]
      have hqe : isDeleteEvent (StoreEvent.query store certid) = false := rfl
      rw [hqe]
      simp only [Bool.false_eq_true, if_false]
      rw [List.filter_eq_self.mpr]
      intro a ha
      rcases List.mem_map.mp ha with ⟨s, _, hs⟩
      rw [← hs]
      rfl

/-- C10 witness: the theorem applied to an environment whose output has
two matching serial lines. -/
theorem c10_delete_order_witness :
    (extractSerials
       ((fun (_ : String) (_ : String) =>
          "Serial Number: 0a\nSerial Number: 1b") "Root" "myca") = [] →
      (remove_cert_fromstore
        { storeOutput := fun _ _ => "Serial Number: 0a\nSerial Number: 1b",
          queryOk := fun _ _ => true,
          delOk := fun _ _ => true } "myca" "Root").result =
        Except.error ("no certificate with matching certid " ++ "myca") ∧
      deleteEvents
        (remove_cert_fromstore
          { storeOutput := fun _ _ => "Serial Number: 0a\nSerial Number: 1b",
            queryOk := fun _ _ => true,
            delOk := fun _ _ => true } "myca" "Root").trace = []) ∧
    ((∀ s, (fun (_ : String) (_ : String) => true) "Root" s = true) →
      deleteEvents
        (remove_cert_fromstore
          { storeOutput := fun _ _ => "Serial Number: 0a\nSerial Number: 1b",
            queryOk := fun _ _ => true,
            delOk := fun _ _ => true } "myca" "Root").trace =
        (extractSerials
          ((fun (_ : String) (_ : String) =>
             "Serial Number: 0a\nSerial Number: 1b") "Root" "myca")).map
          (StoreEvent.delete "Root")) :=
  c10_delete_order
    { storeOutput := fun _ _ => "Serial Number: 0a\nSerial Number: 1b",
      queryOk := fun _ _ => true,
      delOk := fun _ _ => true } "myca" "Root" rfl

/-! ### Claim C6 -/

/-- C6: once `make_ca` reaches its post-run verification (SDK present,
makecert found, popup answered, and `certutil -addstore` behaving),
either both the private-key file and the certificate file exist and the
certificate is added to the Root store with a successful return, or the
function raises an error naming the first missing file (the key file is
checked first) and the add-to-store invocation never happens — never a
partial silent success. -/
theorem c6_make_ca_all_or_nothing (env : CaEnv)
    (subject pw pvk cer sdk : String) (vh now : Nat)
    (hsdk : env.sdkPath = some sdk)
    (htool : env.isfile (joinPath (joinPath sdk "Bin") "makecert.exe") = true)
    (hpopup : popupFound env.activateAt = true)
    (hadd : env.addstoreOk = true) :
    (env.isfile pvk = true → env.isfile cer = true →
      (make_ca env subject pw pvk cer vh now).result = Except.ok () ∧
      Event.addStore "Root" cer ∈
        (make_ca env subject pw pvk cer vh now).trace) ∧
    (env.isfile pvk = false →
      (make_ca env subject pw pvk cer vh now).result =
        Except.error ("makecert(CA) did not create " ++ pvk) ∧
      Event.addStore "Root" cer ∉
        (make_ca env subject pw pvk cer vh now).trace) ∧
    (env.isfile pvk = true → env.isfile cer = false →
      (make_ca env subject pw pvk cer vh now).result =
        Except.error ("makecert(CA) did not create " ++ cer) ∧
      Event.addStore "Root" cer ∉
        (make_ca env subject pw pvk cer vh now).trace) := by
  have hr := run_makecert_authority_of_found
    (makecertAuthorityCmd (joinPath (joinPath sdk "Bin") "makecert.exe")
      (make_ca_beg_day now) (make_ca_end_day now vh) subject pvk cer)
    pw env.activateAt hpopup
  have hno := addStore_not_mem_authority_trace
    (makecertAuthorityCmd (joinPath (joinPath sdk "Bin") "makecert.exe")
      (make_ca_beg_day now) (make_ca_end_day now vh) subject pvk cer)
    pw "Root" cer env.activateAt
  refine ⟨?_, ?_, ?_⟩
  · intro hpvk hcer
    simp [make_ca, hsdk, htool, hr, hpvk, hcer, hadd]
  · intro hpvk
    constructor
    · simp [make_ca, hsdk, htool, hr, hpvk]
    · rw [hr] at hno
      simp only [make_ca, hsdk, htool, if_true, hr, hpvk]
      simpa using hno
  · intro hpvk hcer
    constructor
    · simp [make_ca, hsdk, htool, hr, hpvk, hcer]
    · rw [hr] at hno
      simp only [make_ca, hsdk, htool, if_true, hr, hpvk, hcer]
      simpa using hno

/-- C6 witness: the theorem applied to an environment where every file
exists and every tool succeeds. -/
theorem c6_make_ca_all_or_nothing_witness :
    CaEnv.sdkPath
      { sdkPath := some "C:", isfile := fun _ => true,
        activateAt := fun _ => true, addstoreOk := true } = some "C:" ∧
    popupFound (fun _ => true) = true ∧
    ((make_ca
        { sdkPath := some "C:", isfile := fun _ => true,
          activateAt := fun _ => true, addstoreOk := true }
        "MyCA" "pw" "ca.pvk" "ca.cer" 24 100).result = Except.ok () ∧
      Event.addStore "Root" "ca.cer" ∈
        (make_ca
          { sdkPath := some "C:", isfile := fun _ => true,
            activateAt := fun _ => true, addstoreOk := true }
          "MyCA" "pw" "ca.pvk" "ca.cer" 24 100).trace) :=
  ⟨rfl, rfl,
   (c6_make_ca_all_or_nothing
      { sdkPath := some "C:", isfile := fun _ => true,
        activateAt := fun _ => true, addstoreOk := true }
      "MyCA" "pw" "ca.pvk" "ca.cer" "C:" 24 100
      rfl rfl rfl rfl).1 rfl rfl⟩

/-! ### Claim C7 -/

/-- C7 (amended): `make_ca` passes a begin date of the current date
minus one day, as claimed; but the end date is the current *date* plus
only the whole-day part `valid_hours / 24` of the validity period — the
sub-day remainder is discarded when the hours timedelta is added to a
date — which coincides with the date of "now + valid_hours hours"
exactly when the current hour of day plus the leftover hours does not
cross midnight. -/
theorem c7_validity_window (nowHours valid_hours : Nat) :
    make_ca_beg_day nowHours = dateOfHours nowHours - 1 ∧
    make_ca_end_day nowHours valid_hours =
      dateOfHours nowHours + ((valid_hours / 24 : Nat) : Int) ∧
    (make_ca_end_day nowHours valid_hours =
        spec_end_day nowHours valid_hours ↔
      nowHours % 24 + valid_hours % 24 < 24) := by
  refine ⟨rfl, rfl, ?_⟩
  rw [make_ca_end_day, spec_end_day, dateOfHours, timedeltaHoursDays]
  constructor
  · intro h
    have h' : nowHours / 24 + valid_hours / 24 =
        (nowHours + valid_hours) / 24 := by exact_mod_cast h
    omega
  · intro h
    have h' : nowHours / 24 + valid_hours / 24 =
        (nowHours + valid_hours) / 24 := by omega
    exact_mod_cast h'

/-- C7 counterexample: at 23:00 on day 0 with a 1-hour validity the code
passes day 0 (today) as the end date while "current time plus one hour"
falls on day 1 — the formatted MM/DD/YYYY dates differ. -/
theorem c7_validity_window_counterexample :
    make_ca_beg_day 23 = -1 ∧
    make_ca_end_day 23 1 = 0 ∧
    spec_end_day 23 1 = 1 ∧
    make_ca_end_day 23 1 ≠ spec_end_day 23 1 := by
  refine ⟨rfl, rfl, rfl, ?_⟩
  decide

/-! ### Claim C8 -/

/-- C8: `make_pfx` removes its transient scratch directory on every exit
path: whenever the scratch directory is created (i.e. whenever the SDK
lookup succeeds — scratch creation is unconditional after it), the very
last observable action of the run is the removal of that directory,
whether the body returned 0 or raised at any stage; and when the SDK
lookup fails no scratch directory was ever created. -/
theorem c8_make_pfx_cleanup (env : PfxEnv)
    (ca_subject pw ca_pvk ca_cer pfx : String) :
    (∀ sdk, env.sdkPath = some sdk →
      Event.mkdtemp env.tmpd ∈
        (make_pfx env ca_subject pw ca_pvk ca_cer pfx).trace ∧
      (make_pfx env ca_subject pw ca_pvk ca_cer pfx).trace.getLast? =
        some (Event.removeTree env.tmpd)) ∧
    (env.sdkPath = none →
      (make_pfx env ca_subject pw ca_pvk ca_cer pfx).trace = []) := by
  constructor
  · intro sdk hsdk
    have hm : make_pfx env ca_subject pw ca_pvk ca_cer pfx =
        { trace := Event.mkdtemp env.tmpd ::
            (make_pfx_body env ca_subject pw ca_pvk ca_cer pfx
              (joinPath sdk "Bin") (joinPath env.tmpd "mykey.pvk")
              (joinPath env.tmpd "mycert.cer")
              (joinPath env.tmpd "mycert.spc")).trace ++
            [Event.removeTree env.tmpd],
          result := (make_pfx_body env ca_subject pw ca_pvk ca_cer pfx
              (joinPath sdk "Bin") (joinPath env.tmpd "mykey.pvk")
              (joinPath env.tmpd "mycert.cer")
              (joinPath env.tmpd "mycert.spc")).result } := by
      rw [make_pfx, hsdk]
    constructor
    · rw [hm]
      simp
    · rw [hm]
      show ((Event.mkdtemp env.tmpd ::
          (make_pfx_body env ca_subject pw ca_pvk ca_cer pfx
            (joinPath sdk "Bin") (joinPath env.tmpd "mykey.pvk")
            (joinPath env.tmpd "mycert.cer")
            (joinPath env.tmpd "mycert.spc")).trace) ++
          [Event.removeTree env.tmpd]).getLast? =
          some (Event.removeTree env.tmpd)
      exact List.getLast?_concat _
  · intro hsdk
    simp [make_pfx, hsdk]

/-- C8 witness: the cleanup theorem applied to a concrete environment
with the SDK present. -/
theorem c8_make_pfx_cleanup_witness :
    Event.mkdtemp "T:\\scratch" ∈
      (make_pfx
        { sdkPath := some "C:", tmpd := "T:\\scratch",
          activateAt := fun _ => true, isfile := fun _ => true,
          cert2spcOk := true, pvk2pfxOk := true }
        "User" "pw" "ca.pvk" "ca.cer" "out.pfx").trace ∧
    (make_pfx
        { sdkPath := some "C:", tmpd := "T:\\scratch",
          activateAt := fun _ => true, isfile := fun _ => true,
          cert2spcOk := true, pvk2pfxOk := true }
        "User" "pw" "ca.pvk" "ca.cer" "out.pfx").trace.getLast? =
      some (Event.removeTree "T:\\scratch") :=
  (c8_make_pfx_cleanup
    { sdkPath := some "C:", tmpd := "T:\\scratch",
      activateAt := fun _ => true, isfile := fun _ => true,
      cert2spcOk := true, pvk2pfxOk := true }
    "User" "pw" "ca.pvk" "ca.cer" "out.pfx").1 "C:" rfl

end Pywincert
